import Mathlib

/-!
Verification development for the `red_interactions` package: a shallow
embedding of its interaction dispatch, response lifecycle, HTTP request
construction, and slash-command (de)serialization, together with theorems
settling the specification claims.

Modelling conventions:
* Python dicts / JSON payloads are embedded as `JValue` (objects are ordered
  association lists with string keys, matching insertion-ordered dicts whose
  keys are strings, as in every payload this package handles).
* Fallible Python code is embedded in `Except PyErr`; an uncaught Python
  exception is an `Except.error`.
* External discord-library objects (guilds, channels, members, roles) are
  modelled by their identifying data; library constructors that merely
  repackage payload data are modelled as total (see `DiscordState` below).
-/

namespace RedInteractions

/-- Embedding of Python/JSON values as used by the package's payloads. -/
inductive JValue where
  | null
  | int (n : Int)
  | str (s : String)
  | bool (b : Bool)
  | arr (xs : List JValue)
  | obj (fields : List (String × JValue))

/-- Python exceptions that the embedded code can raise. -/
inductive PyErr where
  | keyError (k : String)
  | typeError (msg : String)
  | attributeError (name : String)
  | valueError (msg : String)
deriving DecidableEq

/-- Ordered association-list lookup, the embedding of `dict.__getitem__`'s
search (first binding wins; `pySet` below keeps keys unique). -/
def jLookup : List (String × JValue) → String → Option JValue
  | [], _ => none
  | (k', v) :: rest, k => if k' = k then some v else jLookup rest k

/-- Python `d[k]` on a dict: `KeyError` when the key is missing, `TypeError`
when the subscripted value is not a dict. -/
def getItem (j : JValue) (k : String) : Except PyErr JValue :=
  match j with
  | .obj fields =>
    match jLookup fields k with
    | some v => .ok v
    | none => .error (.keyError k)
  | _ => .error (.typeError "object is not subscriptable")

/-- Python `d[k]` where the key is itself a payload value. The dicts handled
by this package (e.g. `resolved` bundles) have string keys, so a non-string
key never matches and raises `KeyError`. -/
def getItemV (j : JValue) (k : JValue) : Except PyErr JValue :=
  match j with
  | .obj fields =>
    match k with
    | .str s =>
      match jLookup fields s with
      | some v => .ok v
      | none => .error (.keyError s)
    | _ => .error (.keyError "non-string key")
  | _ => .error (.typeError "object is not subscriptable")

/-- Python `d.get(k, default)`: never raises on a dict; `AttributeError` on a
non-dict. -/
def jGetD (j : JValue) (k : String) (default : JValue) : Except PyErr JValue :=
  match j with
  | .obj fields => .ok ((jLookup fields k).getD default)
  | _ => .error (.attributeError "get")

/-- Python truthiness of a payload value. -/
def pyTruthy : JValue → Bool
  | .null => false
  | .int n => n != 0
  | .str s => s != ""
  | .bool b => b
  | .arr xs => !xs.isEmpty
  | .obj fields => !fields.isEmpty

/-- Digit-list parser backing the embedding of Python `int(str)`. -/
def parseDigits : List Char → Option Nat
  | [] => none
  | cs => cs.foldl (fun acc c =>
      match acc with
      | none => none
      | some n => if c.isDigit then some (n * 10 + (c.toNat - '0'.toNat)) else none)
      (some 0)

/-- Embedding of Python `int(s)` on a string: an optional minus sign followed
by digits. -/
def pyStrToInt (s : String) : Option Int :=
  match s.toList with
  | '-' :: rest => (parseDigits rest).map (fun n => -(n : Int))
  | cs => (parseDigits cs).map (fun n => (n : Int))

/-- Python `int(x)` on the value kinds reaching the conversions in this
package: ints pass through, numeric strings are parsed, bools coerce. -/
def pyInt : JValue → Except PyErr Int
  | .int n => .ok n
  | .str s =>
    match pyStrToInt s with
    | some n => .ok n
    | none => .error (.valueError s)
  | .bool b => .ok (if b then 1 else 0)
  | _ => .error (.typeError "int() argument")

/-- Truthiness of an optional int, for the `if guild_id:` style tests on
values produced by `_get_as_snowflake`. -/
def optIntTruthy : Option Int → Bool
  | some n => n != 0
  | none => false

/-- Python dict assignment `d[k] = v`: replaces the value in place when the
key exists (keeping its position, as insertion-ordered dicts do), otherwise
appends the new binding. -/
def pySet : List (String × JValue) → String → JValue → List (String × JValue)
  | [], k, v => [(k, v)]
  | (k', v') :: rest, k, v =>
    if k' = k then (k, v) :: rest else (k', v') :: pySet rest k v

/-- Embedding of `discord.utils._get_as_snowflake(data, key)`: returns `None`
on a missing key, and otherwise `value and int(value)`, so `None` stays
`None`, ints pass through, and numeric strings are parsed (the falsy empty
string is modelled as `None`, which has the same truthiness). -/
def getAsSnowflake (j : JValue) (k : String) : Except PyErr (Option Int) :=
  match j with
  | .obj fields =>
    match jLookup fields k with
    | none => .ok none
    | some .null => .ok none
    | some (.int n) => .ok (some n)
    | some (.str s) =>
      if s = "" then .ok none
      else
        match pyStrToInt s with
        | some n => .ok (some n)
        | none => .error (.valueError s)
    | some v => if pyTruthy v then .error (.typeError "int() argument") else .ok none
  | _ => .error (.attributeError "get")

@[simp] theorem jLookup_nil (k : String) : jLookup [] k = none := rfl

@[simp] theorem jLookup_cons (k' k : String) (v : JValue) (rest : List (String × JValue)) :
    jLookup ((k', v) :: rest) k = if k' = k then some v else jLookup rest k := rfl

/-- Setting one key does not change lookups of another key. -/
theorem jLookup_pySet_ne (d : List (String × JValue)) (k k' : String) (v : JValue)
    (h : k ≠ k') : jLookup (pySet d k' v) k = jLookup d k := by
  induction d with
  | nil => simp [pySet, jLookup, Ne.symm h]
  | cons p rest ih =>
    obtain ⟨pk, pv⟩ := p
    by_cases hp : pk = k'
    · subst hp
      simp [pySet, jLookup, Ne.symm h]
    · simp [pySet, jLookup, hp, ih]

/-- Setting a key makes its lookup return the new value. -/
theorem jLookup_pySet_self (d : List (String × JValue)) (k : String) (v : JValue) :
    jLookup (pySet d k v) k = some v := by
  induction d with
  | nil => simp [pySet, jLookup]
  | cons p rest ih =>
    obtain ⟨pk, pv⟩ := p
    by_cases hp : pk = k
    · subst hp; simp [pySet, jLookup]
    · simp [pySet, jLookup, hp, ih]

/-! ## HTTP gateway client (`http.py`) -/

/-- Embedding of a constructed `Route` plus the `json=` argument handed to the
host transport: one value per network call the client issues. -/
structure Request where
  method : String
  url : String
  interaction_id : Option Int
  token : String
  application_id : Option Int
  message_id : Option Int
  body : Option JValue

/-- Route template of the interaction-callback (initial acknowledgment)
endpoint, exactly as written in `send_message`. -/
def callbackRoute : String := "/interactions/{interaction_id}/{token}/callback"

/-- Route template of the webhook follow-up send endpoint, exactly as written
in `send_message`. -/
def webhookRoute : String := "/webhooks/{application_id}/{token}"

/-- Embedding of `InteractionCallbackType` (`models/interactions.py`). -/
inductive InteractionCallbackType where
  | pong
  | channel_message_with_source
  | deferred_channel_message_with_source
  | deferred_update_message
  | update_message
deriving DecidableEq

/-- Numeric `.value` of each `InteractionCallbackType` member. -/
def InteractionCallbackType.value : InteractionCallbackType → Int
  | .pong => 1
  | .channel_message_with_source => 4
  | .deferred_channel_message_with_source => 5
  | .deferred_update_message => 6
  | .update_message => 7

/-- Data-dict construction of `send_message`, in source statement order
(including the duplicated `embeds` and `flags` assignments). `embeds` is the
list after the single-`embed` override, `allowed_mentions` the value after
defaulting to the bot's; embed/component objects are represented by their
`to_dict` image. -/
def send_message_data (content : Option String) (tts : Bool) (embeds : List JValue)
    (allowed_mentions : Option JValue) (flags : Option Int)
    (components : Option (List JValue)) : List (String × JValue) :=
  let data : List (String × JValue) := []
  let data := match content with
    | some c => if c ≠ "" then pySet data "content" (.str c) else data
    | none => data
  let data := if tts then pySet data "tts" (.bool true) else data
  let data := if !embeds.isEmpty then pySet data "embeds" (.arr embeds) else data
  let data := match allowed_mentions with
    | some a => pySet data "allowed_mentions" a
    | none => data
  let data := match flags with
    | some f => if f ≠ 0 then pySet data "flags" (.int f) else data
    | none => data
  let data := if !embeds.isEmpty then pySet data "embeds" (.arr embeds) else data
  let data := match flags with
    | some f => if f ≠ 0 then pySet data "flags" (.int f) else data
    | none => data
  let data := match components with
    | some cs => pySet data "components" (.arr cs)
    | none => data
  data

/-- Tail of `send_message` after the local defaulting: wrap the data dict
into the `{"type": ..., "data": ...}` envelope when it is non-empty
(evaluating `allowed_mentions.to_dict()` unguarded, which raises
`AttributeError` when the effective allowed-mentions value is `None`), then
pick the route and the body to send on `initial_response` alone. -/
def send_message_finish (type_value : Int) (initial_response : Bool)
    (allowed_mentions : Option JValue) (data : List (String × JValue))
    (interaction_id : Int) (token : String) (application_id : Int) :
    Except PyErr Request :=
  let payload : List (String × JValue) := [("type", .int type_value)]
  let mk : List (String × JValue) → List (String × JValue) → Request :=
    fun payload data =>
      { method := "POST"
        url := if initial_response then callbackRoute else webhookRoute
        interaction_id := some interaction_id
        token := token
        application_id := some application_id
        message_id := none
        body := some (.obj (if initial_response then payload else data)) }
  if data.isEmpty then
    .ok (mk payload data)
  else
    match allowed_mentions with
    | none => .error (.attributeError "to_dict")
    | some a =>
      let data := pySet data "allowed_mentions" a
      let payload := pySet payload "data" (.obj data)
      .ok (mk payload data)

/-- Embedding of `InteractionsHTTPClient.send_message`: single-`embed`
override, defaulting of `allowed_mentions` to the bot's, data-dict
construction, then the envelope/endpoint branch of `send_message_finish`. -/
def send_message (application_id : Int) (bot_allowed_mentions : Option JValue)
    (token : String) (interaction_id : Int) (type : InteractionCallbackType)
    (initial_response : Bool) (content : Option String) (embed : Option JValue)
    (embeds : List JValue) (tts : Bool) (allowed_mentions : Option JValue)
    (flags : Option Int) (components : Option (List JValue)) :
    Except PyErr Request :=
  let embeds := match embed with
    | some e => [e]
    | none => embeds
  let allowed_mentions := match allowed_mentions with
    | some a => some a
    | none => bot_allowed_mentions
  let data := send_message_data content tts embeds allowed_mentions flags components
  send_message_finish type.value initial_response allowed_mentions data
    interaction_id token application_id

/-- Embedding of `InteractionsHTTPClient.edit_message`: `PATCH` against the
webhook messages endpoint, targeting the `@original` sentinel when
`original=True` and the explicit message id otherwise. -/
def edit_message (application_id : Int) (bot_allowed_mentions : Option JValue)
    (token : String) (message_id : Option Int) (content : Option String)
    (embed : Option JValue) (embeds : Option (List JValue))
    (allowed_mentions : Option JValue) (original : Bool)
    (components : Option (List JValue)) : Except PyErr Request :=
  let url := "/webhooks/{application_id}/{token}/messages/" ++
    (if original then "@original" else "{message_id}")
  let embeds := match embed with
    | some e => some [e]
    | none => embeds
  let allowed_mentions := match allowed_mentions with
    | some a => some a
    | none => bot_allowed_mentions
  let payload : List (String × JValue) := []
  let payload := match content with
    | some c => if c ≠ "" then pySet payload "content" (.str c) else payload
    | none => payload
  let payload := match embeds with
    | some es => if !es.isEmpty then pySet payload "embeds" (.arr es) else payload
    | none => payload
  let payload := match components with
    | some cs => pySet payload "components" (.arr cs)
    | none => payload
  match allowed_mentions with
  | none => .error (.attributeError "to_dict")
  | some a =>
    .ok { method := "PATCH"
          url := url
          interaction_id := none
          token := token
          application_id := some application_id
          message_id := message_id
          body := some (.obj (pySet payload "allowed_mentions" a)) }

/-! ## Response lifecycle state machine (`models/interactions.py`) -/

/-- The three lifecycle booleans of an `InteractionResponse`. -/
structure ResponseFlags where
  sent : Bool
  deferred : Bool
  completed : Bool
deriving DecidableEq

/-- Flag state of a freshly constructed response (`sent=deferred=completed=False`). -/
def freshResponse : ResponseFlags := ⟨false, false, false⟩

/-- Per-response constants threaded through `send`/`defer`: identifiers,
token, and the ambient bot configuration the HTTP client consults. -/
structure RespCtx where
  application_id : Int
  bot_allowed_mentions : Option JValue
  token : String
  interaction_id : Int

/-- Embedding of `InteractionResponse.send` (also bound as `reply`): captures
`initial = not self.sent` at call start, issues one `send_message` network
call with the `channel_message_with_source` discriminator, then updates the
flags. -/
def InteractionResponse.send (ctx : RespCtx) (r : ResponseFlags)
    (content : Option String) (embed : Option JValue) (embeds : List JValue)
    (tts : Bool) (allowed_mentions : Option JValue) (hidden : Bool) :
    Except PyErr (Request × ResponseFlags) := do
  let flags : Option Int := if hidden then some 64 else none
  let initial := !r.sent
  let req ← send_message ctx.application_id ctx.bot_allowed_mentions ctx.token
    ctx.interaction_id .channel_message_with_source initial content embed embeds
    tts allowed_mentions flags none
  let r := if initial then { r with sent := true } else r
  let r := if !r.completed then { r with completed := true } else r
  pure (req, r)

/-- Embedding of `InteractionResponse.defer`: one `send_message` network call
with the `deferred_channel_message_with_source` discriminator and no content,
after which `sent` and `deferred` are true. -/
def InteractionResponse.defer (ctx : RespCtx) (r : ResponseFlags) (hidden : Bool) :
    Except PyErr (Request × ResponseFlags) := do
  let flags : Option Int := if hidden then some 64 else none
  let initial := !r.sent
  let req ← send_message ctx.application_id ctx.bot_allowed_mentions ctx.token
    ctx.interaction_id .deferred_channel_message_with_source initial none none []
    false none flags none
  let r := { r with sent := true, deferred := true }
  pure (req, r)

/-- Does a request's JSON body carry the given top-level key? -/
def Request.bodyHasKey (r : Request) (k : String) : Bool :=
  match r.body with
  | some (.obj fields) => (jLookup fields k).isSome
  | _ => false

@[simp] theorem jLookup_pySet_content_type (d : List (String × JValue)) (v : JValue) :
    jLookup (pySet d "content" v) "type" = jLookup d "type" :=
  jLookup_pySet_ne d "type" "content" v (by decide)

@[simp] theorem jLookup_pySet_tts_type (d : List (String × JValue)) (v : JValue) :
    jLookup (pySet d "tts" v) "type" = jLookup d "type" :=
  jLookup_pySet_ne d "type" "tts" v (by decide)

@[simp] theorem jLookup_pySet_embeds_type (d : List (String × JValue)) (v : JValue) :
    jLookup (pySet d "embeds" v) "type" = jLookup d "type" :=
  jLookup_pySet_ne d "type" "embeds" v (by decide)

@[simp] theorem jLookup_pySet_mentions_type (d : List (String × JValue)) (v : JValue) :
    jLookup (pySet d "allowed_mentions" v) "type" = jLookup d "type" :=
  jLookup_pySet_ne d "type" "allowed_mentions" v (by decide)

@[simp] theorem jLookup_pySet_flags_type (d : List (String × JValue)) (v : JValue) :
    jLookup (pySet d "flags" v) "type" = jLookup d "type" :=
  jLookup_pySet_ne d "type" "flags" v (by decide)

@[simp] theorem jLookup_pySet_components_type (d : List (String × JValue)) (v : JValue) :
    jLookup (pySet d "components" v) "type" = jLookup d "type" :=
  jLookup_pySet_ne d "type" "components" v (by decide)

@[simp] theorem jLookup_pySet_data_type (d : List (String × JValue)) (v : JValue) :
    jLookup (pySet d "data" v) "type" = jLookup d "type" :=
  jLookup_pySet_ne d "type" "data" v (by decide)

/-- The message-data dict built by `send_message` never contains a `type`
key: the discriminator lives only in the callback envelope. -/
theorem send_message_data_no_type (content : Option String) (tts : Bool)
    (embeds : List JValue) (allowed_mentions : Option JValue) (flags : Option Int)
    (components : Option (List JValue)) :
    jLookup (send_message_data content tts embeds allowed_mentions flags components)
      "type" = none := by
  unfold send_message_data
  repeat' split
  all_goals simp [jLookup]

/-- Endpoint/envelope contract of every successful `send_message_finish`:
given a data dict free of a `type` key, the route template is decided by
`initial_response` alone, the method is `POST`, the callback branch carries
the `type` discriminator in its body, and the webhook branch's body never
does. -/
theorem send_message_finish_spec (type_value : Int) (initial_response : Bool)
    (allowed_mentions : Option JValue) (data : List (String × JValue))
    (interaction_id : Int) (token : String) (application_id : Int) (req : Request)
    (hnt : jLookup data "type" = none)
    (h : send_message_finish type_value initial_response allowed_mentions data
      interaction_id token application_id = .ok req) :
    req.url = (if initial_response then callbackRoute else webhookRoute) ∧
    req.method = "POST" ∧
    (initial_response = true → req.bodyHasKey "type" = true) ∧
    (initial_response = false → req.bodyHasKey "type" = false) := by
  unfold send_message_finish at h
  by_cases hempty : data.isEmpty
  · rw [if_pos hempty] at h
    cases h
    refine ⟨rfl, rfl, ?_, ?_⟩
    · intro hinit
      subst hinit
      simp [Request.bodyHasKey, jLookup]
    · intro hinit
      subst hinit
      simp [Request.bodyHasKey, List.isEmpty_iff.mp hempty]
  · rw [if_neg hempty] at h
    match allowed_mentions, h with
    | some a, h =>
      cases h
      refine ⟨rfl, rfl, ?_, ?_⟩
      · intro hinit
        subst hinit
        simp [Request.bodyHasKey, jLookup]
      · intro hinit
        subst hinit
        simp [Request.bodyHasKey, hnt]

/-- Endpoint/envelope contract lifted to `send_message` itself. -/
theorem send_message_spec (application_id : Int) (bot_allowed_mentions : Option JValue)
    (token : String) (interaction_id : Int) (type : InteractionCallbackType)
    (initial_response : Bool) (content : Option String) (embed : Option JValue)
    (embeds : List JValue) (tts : Bool) (allowed_mentions : Option JValue)
    (flags : Option Int) (components : Option (List JValue)) (req : Request)
    (h : send_message application_id bot_allowed_mentions token interaction_id type
      initial_response content embed embeds tts allowed_mentions flags components
      = .ok req) :
    req.url = (if initial_response then callbackRoute else webhookRoute) ∧
    req.method = "POST" ∧
    (initial_response = true → req.bodyHasKey "type" = true) ∧
    (initial_response = false → req.bodyHasKey "type" = false) := by
  unfold send_message at h
  exact send_message_finish_spec _ _ _ _ _ _ _ _
    (send_message_data_no_type _ _ _ _ _ _) h

/-! ## Cached discord-side state and resolved domain objects

The discord library is an external collaborator; its guild/channel/member/
role caches are modelled by the identifying data the handlers consult, and
its object constructors — which merely repackage payload data the handlers
have already validated — are modelled as total, producing a `ResolvedObj`
tagged with the ids involved. -/

/-- A cached guild, by the id sets the option handlers probe. -/
structure GuildS where
  channel_ids : List Int
  member_ids : List Int
  role_ids : List Int

/-- The connection state's caches: guilds keyed by id, private channels and
users by id. -/
structure DiscordState where
  guilds : List (Int × GuildS)
  private_channel_ids : List Int
  user_ids : List Int

/-- Embedding of `bot.get_guild(guild_id)`. -/
def get_guild (st : DiscordState) (gid : Int) : Option GuildS :=
  (st.guilds.find? (fun p => p.1 = gid)).map (fun p => p.2)

/-- Embedding of `guild._add_member` on the guild with the given id. -/
def add_member (st : DiscordState) (gid uid : Int) : DiscordState :=
  { st with guilds := st.guilds.map (fun p =>
      if p.1 = gid then (p.1, { p.2 with member_ids := uid :: p.2.member_ids }) else p) }

/-- Embedding of `guild._add_role` on the guild with the given id. -/
def add_role (st : DiscordState) (gid rid : Int) : DiscordState :=
  { st with guilds := st.guilds.map (fun p =>
      if p.1 = gid then (p.1, { p.2 with role_ids := rid :: p.2.role_ids }) else p) }

/-- Embedding of `state.store_user`. -/
def store_user (st : DiscordState) (uid : Int) : DiscordState :=
  { st with user_ids := uid :: st.user_ids }

/-- A fully populated domain object substituted into an option value after
resolution. -/
inductive ResolvedObj where
  | guildChannel (guild_id : Int) (channel_id : Int)
  | dmChannel (channel_id : Int)
  | member (guild_id : Int) (user_id : Int)
  | user (user_id : Int)
  | role (guild_id : Int) (role_id : Int)

/-- The value slot of a `ResponseOption`: the raw wire scalar it starts as,
or the domain object a handler substituted via `set_value`. -/
inductive OptValue where
  | raw (v : JValue)
  | resolved (o : ResolvedObj)

/-- Is this value still the raw wire scalar? -/
def OptValue.isRaw : OptValue → Bool
  | .raw _ => true
  | .resolved _ => false

/-! ## Slash command option types and response options (`models/slash_commands.py`) -/

/-- Embedding of the `SlashOptionType` enum. -/
inductive SlashOptionType where
  | SUB_COMMAND
  | SUB_COMMAND_GROUP
  | STRING
  | INTEGER
  | BOOLEAN
  | USER
  | CHANNEL
  | ROLE
deriving DecidableEq

/-- Numeric `.value` of each `SlashOptionType` member. -/
def SlashOptionType.value : SlashOptionType → Int
  | .SUB_COMMAND => 1
  | .SUB_COMMAND_GROUP => 2
  | .STRING => 3
  | .INTEGER => 4
  | .BOOLEAN => 5
  | .USER => 6
  | .CHANNEL => 7
  | .ROLE => 8

/-- Embedding of the `SlashOptionType(x)` enum call: succeeds on the eight
member values and raises `ValueError` otherwise. -/
def SlashOptionType.ofValue : JValue → Except PyErr SlashOptionType
  | .int 1 => .ok .SUB_COMMAND
  | .int 2 => .ok .SUB_COMMAND_GROUP
  | .int 3 => .ok .STRING
  | .int 4 => .ok .INTEGER
  | .int 5 => .ok .BOOLEAN
  | .int 6 => .ok .USER
  | .int 7 => .ok .CHANNEL
  | .int 8 => .ok .ROLE
  | _ => .error (.valueError "not a valid SlashOptionType")

/-- Embedding of `ResponseOption`: type, name and the (possibly resolved)
value. -/
structure ResponseOption where
  type : SlashOptionType
  name : JValue
  value : OptValue

/-- Embedding of `ResponseOption.from_dict`: option type defaulting to
`3` (STRING), with `name` and `value` taken from the payload; the value
starts raw. -/
def ResponseOption.from_dict (data : JValue) : Except PyErr ResponseOption := do
  let tRaw ← jGetD data "type" (.int 3)
  let t ← SlashOptionType.ofValue tRaw
  let name ← getItem data "name"
  let value ← getItem data "value"
  pure ⟨t, name, .raw value⟩

/-! ## Per-type option resolution handlers (`InteractionCommand._handle_option_*`) -/

/-- Embedding of `_handle_option_channel`: parse the id, index the resolved
bundle, then produce the cached guild channel or one constructed from the
resolved payload (guild context), or the cached private channel or a
constructed `DMChannel` (DM context). A missing guild in the bot cache makes
`self.guild.get_channel` an attribute access on `None`. -/
def _handle_option_channel (st : DiscordState) (guild_id : Option Int)
    (data : JValue) (option : ResponseOption) (resolved : JValue) :
    Except PyErr (ResponseOption × DiscordState) := do
  let v ← getItem data "value"
  let channel_id ← pyInt v
  let channels ← getItem resolved "channels"
  let _resolved_channel ← getItemV channels v
  if optIntTruthy guild_id then
    let gid := guild_id.getD 0
    match get_guild st gid with
    | none => throw (.attributeError "get_channel")
    | some g =>
      -- cache hit returns the cached channel, miss constructs a TextChannel
      -- from the resolved payload: either way a populated guild channel
      if channel_id ∈ g.channel_ids then
        pure ({ option with value := .resolved (.guildChannel gid channel_id) }, st)
      else
        pure ({ option with value := .resolved (.guildChannel gid channel_id) }, st)
  else
    -- private-channel cache hit, or a DMChannel built from the resolved payload
    if channel_id ∈ st.private_channel_ids then
      pure ({ option with value := .resolved (.dmChannel channel_id) }, st)
    else
      pure ({ option with value := .resolved (.dmChannel channel_id) }, st)

/-- Embedding of `_handle_option_user`: cached member, or a member built from
the resolved payload and added to the guild cache (guild context); a stored
user (DM context). -/
def _handle_option_user (st : DiscordState) (guild_id : Option Int)
    (data : JValue) (option : ResponseOption) (resolved : JValue) :
    Except PyErr (ResponseOption × DiscordState) := do
  let v ← getItem data "value"
  let user_id ← pyInt v
  let users ← getItem resolved "users"
  let _resolved_user ← getItemV users v
  if optIntTruthy guild_id then
    let gid := guild_id.getD 0
    match get_guild st gid with
    | none => throw (.attributeError "get_member")
    | some g =>
      if user_id ∈ g.member_ids then
        pure ({ option with value := .resolved (.member gid user_id) }, st)
      else
        pure ({ option with value := .resolved (.member gid user_id) },
          add_member st gid user_id)
  else
    pure ({ option with value := .resolved (.user user_id) }, store_user st user_id)

/-- Embedding of `_handle_option_role`: the id parse and resolved lookup run
unconditionally, but `option.set_value(role)` sits inside the
`if self.guild_id:` block, so in a DM context the option is returned with its
raw value untouched. -/
def _handle_option_role (st : DiscordState) (guild_id : Option Int)
    (data : JValue) (option : ResponseOption) (resolved : JValue) :
    Except PyErr (ResponseOption × DiscordState) := do
  let v ← getItem data "value"
  let role_id ← pyInt v
  let roles ← getItem resolved "roles"
  let _resolved_role ← getItemV roles v
  if optIntTruthy guild_id then
    let gid := guild_id.getD 0
    match get_guild st gid with
    | none => throw (.attributeError "get_role")
    | some g =>
      if role_id ∈ g.role_ids then
        pure ({ option with value := .resolved (.role gid role_id) }, st)
      else
        pure ({ option with value := .resolved (.role gid role_id) },
          add_role st gid role_id)
  else
    pure (option, st)

/-- Embedding of the `getattr(self, f"_handle_option_{type.name.lower()}")`
lookup: only the channel/user/role handlers exist on the class; every other
option type raises `AttributeError`, which `_parse_options` treats as
"no resolution needed". -/
def option_handler (t : SlashOptionType) :
    Option (DiscordState → Option Int → JValue → ResponseOption → JValue →
      Except PyErr (ResponseOption × DiscordState)) :=
  match t with
  | .CHANNEL => some _handle_option_channel
  | .USER => some _handle_option_user
  | .ROLE => some _handle_option_role
  | _ => none

/-- Embedding of `InteractionCommand._parse_options`: each option dict is
parsed by `ResponseOption.from_dict` (whose failure propagates), then the
per-type handler runs inside a try/except — a handler failure is recorded in
the returned log list and the option is appended with the value it had
before the handler ran (its raw wire value). -/
def _parse_options (st : DiscordState) (guild_id : Option Int)
    (options : List JValue) (resolved : JValue) :
    Except PyErr (List ResponseOption × DiscordState × List PyErr) :=
  match options with
  | [] => .ok ([], st, [])
  | o :: rest =>
    match ResponseOption.from_dict o with
    | .error e => .error e
    | .ok option =>
      let step : ResponseOption × DiscordState × List PyErr :=
        match option_handler option.type with
        | none => (option, st, [])
        | some handler =>
          match handler st guild_id o option resolved with
          | .ok (o2, s2) => (o2, s2, [])
          | .error e => (option, st, [e])
      match _parse_options step.2.1 guild_id rest resolved with
      | .ok (opts, stF, logsR) => .ok (step.1 :: opts, stF, step.2.2 ++ logsR)
      | .error e => .error e

/-! ## Interaction response construction and the dispatcher (`_state.py`) -/

/-- The invoking author: a guild member or a bare user, by id. -/
inductive AuthorS where
  | member (guild_id : Int) (user_id : Int)
  | user (user_id : Int)

/-- Fields `InteractionResponse.__init__` extracts from the raw payload. -/
structure BaseResponse where
  id : Int
  version : JValue
  token : JValue
  guild_id : Option Int
  channel_id : Option Int
  application_id : Option Int
  author_id : Int
  author : AuthorS
  interaction_data : JValue

/-- Embedding of `InteractionResponse.__init__` on a raw payload: any missing
or malformed required field raises, in source order. -/
def mkInteractionResponse (data : JValue) : Except PyErr BaseResponse := do
  let id ← pyInt (← getItem data "id")
  let version ← getItem data "version"
  let token ← getItem data "token"
  let guild_id ← getAsSnowflake data "guild_id"
  let channel_id ← getAsSnowflake data "channel_id"
  let application_id ← getAsSnowflake data "application_id"
  let author ←
    if optIntTruthy guild_id then do
      let member_data ← getItem data "member"
      let u ← getItem member_data "user"
      let uid ← pyInt (← getItem u "id")
      pure (AuthorS.member (guild_id.getD 0) uid)
    else do
      let member_data ← getItem data "user"
      let uid ← pyInt (← getItem member_data "id")
      pure (AuthorS.user uid)
  let author_id := match author with
    | .member _ uid => uid
    | .user uid => uid
  let interaction_data ← getItem data "data"
  pure ⟨id, version, token, guild_id, channel_id, application_id, author_id,
    author, interaction_data⟩

/-- Embedding of a constructed `InteractionCommand`. -/
structure InteractionCommandS where
  base : BaseResponse
  command_name : JValue
  command_id : Int
  options : List ResponseOption

/-- Embedding of `InteractionCommand.__init__`: base construction, then
`command_name`/`command_id` from the interaction data, then option parsing
against the `resolved` bundle. Returns the constructed command together with
the (possibly mutated) discord cache state. -/
def mkInteractionCommand (st : DiscordState) (data : JValue) :
    Except PyErr (InteractionCommandS × DiscordState) := do
  let base ← mkInteractionResponse data
  let command_name ← getItem base.interaction_data "name"
  let command_id ← pyInt (← getItem base.interaction_data "id")
  let optionsRaw ← jGetD base.interaction_data "options" (.arr [])
  let resolved ← jGetD base.interaction_data "resolved" (.obj [])
  let optionsList ← match optionsRaw with
    | .arr xs => pure xs
    | _ => throw (.typeError "object is not iterable")
  let parsed ← _parse_options st base.guild_id optionsList resolved
  pure (⟨base, command_name, command_id, parsed.1⟩, parsed.2.1)

/-- Embedding of a constructed `InteractionButton`; the triggering message is
modelled by its id, `none` when the swallowed `discord.Message` construction
failed. -/
structure InteractionButtonS where
  base : BaseResponse
  custom_id : JValue
  component_type : JValue
  message : Option Int

/-- Embedding of `InteractionButton.__init__`: base construction,
`custom_id`/`component_type` from the interaction data, the `message`
payload (whose absence raises), and the try/except-guarded message
construction, modelled as requiring a parsable message id. -/
def mkInteractionButton (st : DiscordState) (data : JValue) :
    Except PyErr (InteractionButtonS × DiscordState) := do
  let base ← mkInteractionResponse data
  let custom_id ← getItem base.interaction_data "custom_id"
  let component_type ← getItem base.interaction_data "component_type"
  let message ← getItem data "message"
  let msg : Option Int :=
    match (do pyInt (← getItem message "id") : Except PyErr Int) with
    | .ok n => some n
    | .error _ => none
  pure (⟨base, custom_id, component_type, msg⟩, st)

/-- An event re-dispatched to host listeners via `bot.dispatch`. -/
inductive Event where
  | red_slash_interaction (cmd : InteractionCommandS)
  | red_button_interaction (btn : InteractionButtonS)

/-- Which handler the dispatcher's `handlers` dict selects. -/
inductive HandlerKind where
  | slash
  | button
deriving DecidableEq

/-- Is this value hashable in Python? Lists and dicts are not, so using one
as a `dict.get` key raises `TypeError`. -/
def pyHashable : JValue → Bool
  | .arr _ => false
  | .obj _ => false
  | _ => true

/-- Embedding of `handlers.get(data["type"], self.handle_slash_interaction)`
with `handlers = {2: slash, 3: button}`: `dict.get` hashes the key first, so
an unhashable `type` value (a list or dict) raises `TypeError`; among
hashable values only the int `3` selects the button handler, while `2` hits
the table and everything else takes the default, both landing on the slash
handler. -/
def handlersLookup (t : JValue) : Except PyErr HandlerKind :=
  if pyHashable t then
    .ok (match t with
      | .int 3 => .button
      | _ => .slash)
  else
    .error (.typeError "unhashable type")

/-- Embedding of `handle_slash_interaction`: construct the command, dispatch
exactly one `red_slash_interaction` event. -/
def handle_slash_interaction (st : DiscordState) (data : JValue) :
    Except PyErr (List Event × DiscordState) := do
  let (cmd, st') ← mkInteractionCommand st data
  pure ([.red_slash_interaction cmd], st')

/-- Embedding of `handle_button_interaction`: construct the button, dispatch
exactly one `red_button_interaction` event. -/
def handle_button_interaction (st : DiscordState) (data : JValue) :
    Except PyErr (List Event × DiscordState) := do
  let (btn, st') ← mkInteractionButton st data
  pure ([.red_button_interaction btn], st')

/-- Run the selected handler. -/
def run_handler (k : HandlerKind) (st : DiscordState) (data : JValue) :
    Except PyErr (List Event × DiscordState) :=
  match k with
  | .slash => handle_slash_interaction st data
  | .button => handle_button_interaction st data

/-- Outcome of one `parse_interaction_create` call that returned normally:
the events dispatched, the resulting cache state, and the exception caught
and logged by the try/except, if any. -/
structure DispatchResult where
  events : List Event
  state : DiscordState
  caught : Option PyErr

/-- Embedding of `InteractionState.parse_interaction_create`: both the
`data["type"]` lookup and the `handlers.get` key hashing happen before the
`try:` block, so their failures (missing key, unhashable key) propagate to
the caller; everything inside the chosen handler is caught and logged. -/
def parse_interaction_create (st : DiscordState) (data : JValue) :
    Except PyErr DispatchResult := do
  let t ← getItem data "type"
  let k ← handlersLookup t
  match run_handler k st data with
  | .ok (evs, st') => pure ⟨evs, st', none⟩
  | .error e => pure ⟨[], st, some e⟩

/-! ## Command registry entities (`models/slash_commands.py`) -/

/-- Value of a `SlashOptionChoice`, a string or an int on the wire. -/
inductive ChoiceValue where
  | vstr (s : String)
  | vint (n : Int)
deriving DecidableEq

/-- JSON form of a choice value. -/
def ChoiceValue.toJ : ChoiceValue → JValue
  | .vstr s => .str s
  | .vint n => .int n

/-- Embedding of `SlashOptionChoice`. -/
structure SlashOptionChoice where
  name : String
  value : ChoiceValue
deriving DecidableEq

/-- Embedding of `SlashOptionChoice.to_dict`. -/
def SlashOptionChoice.to_dict (c : SlashOptionChoice) : JValue :=
  .obj [("name", .str c.name), ("value", c.value.toJ)]

/-- Embedding of `SlashOptionChoice.from_dict`: `data["name"]` and
`data["value"]`, restricted to the string/int values choices carry. -/
def SlashOptionChoice.from_dict (data : JValue) : Except PyErr SlashOptionChoice := do
  let n ← getItem data "name"
  let v ← getItem data "value"
  match n, v with
  | .str s, .str t => pure ⟨s, .vstr t⟩
  | .str s, .int k => pure ⟨s, .vint k⟩
  | _, _ => throw (.typeError "choice fields")

/-- Embedding of `SlashOption`: type, name, description, required flag,
choices and nested options (for sub-commands). The constructor's defensive
`copy()` of the choice/option lists is the identity on immutable Lean
lists. -/
inductive SlashOption where
  | mk (type : SlashOptionType) (name : String) (description : String)
       (required : Bool) (choices : List SlashOptionChoice)
       (options : List SlashOption)

/-- Option type of a `SlashOption`. -/
def SlashOption.type : SlashOption → SlashOptionType
  | .mk t _ _ _ _ _ => t

/-- Name of a `SlashOption`. -/
def SlashOption.name : SlashOption → String
  | .mk _ n _ _ _ _ => n

/-- Description of a `SlashOption`. -/
def SlashOption.description : SlashOption → String
  | .mk _ _ d _ _ _ => d

/-- Required flag of a `SlashOption`. -/
def SlashOption.required : SlashOption → Bool
  | .mk _ _ _ r _ _ => r

/-- Choices of a `SlashOption`. -/
def SlashOption.choices : SlashOption → List SlashOptionChoice
  | .mk _ _ _ _ cs _ => cs

/-- Nested options of a `SlashOption`. -/
def SlashOption.options : SlashOption → List SlashOption
  | .mk _ _ _ _ _ os => os

mutual

/-- Embedding of `SlashOption.to_dict`: the four scalar fields always, the
`choices`/`options` keys only when those lists are non-empty. -/
def SlashOption.to_dict : SlashOption → JValue
  | .mk t n d r cs os =>
    let base : List (String × JValue) :=
      [("type", .int t.value), ("name", .str n), ("description", .str d),
       ("required", .bool r)]
    let base := if cs.isEmpty then base
      else base ++ [("choices", .arr (cs.map SlashOptionChoice.to_dict))]
    let base := if os.isEmpty then base
      else base ++ [("options", .arr (SlashOption.toDictList os))]
    .obj base

/-- The `[o.to_dict() for o in self.options]` comprehension. -/
def SlashOption.toDictList : List SlashOption → List JValue
  | [] => []
  | o :: rest => SlashOption.to_dict o :: SlashOption.toDictList rest

end

/-- The `[SlashOptionChoice.from_dict(choice) for choice in ...]`
comprehension. -/
def SlashOptionChoice.fromDictList : List JValue → Except PyErr (List SlashOptionChoice)
  | [] => .ok []
  | x :: rest => do
    let c ← SlashOptionChoice.from_dict x
    let cs ← SlashOptionChoice.fromDictList rest
    pure (c :: cs)

/-- A value found inside an object is structurally smaller than the object,
justifying the nested recursion of `SlashOption.from_dict`. -/
theorem sizeOf_jLookup_lt (fields : List (String × JValue)) (k : String) (v : JValue)
    (h : jLookup fields k = some v) : sizeOf v < sizeOf (JValue.obj fields) := by
  induction fields with
  | nil => simp [jLookup] at h
  | cons p rest ih =>
    obtain ⟨pk, pv⟩ := p
    rw [jLookup_cons] at h
    by_cases hp : pk = k
    · rw [if_pos hp] at h
      cases h
      simp
      omega
    · rw [if_neg hp] at h
      have := ih h
      simp at this ⊢
      omega

mutual

/-- Embedding of `SlashOption.from_dict`: choices, then nested options (both
defaulting to empty when the key is absent), then the scalar fields; an
invalid option type raises through the `SlashOptionType` enum call. The
`name`/`description` fields are taken as strings, the only shape this
package ever stores. -/
def SlashOption.from_dict (j : JValue) : Except PyErr SlashOption :=
  match j with
  | .obj fields => do
    let choices ← match jLookup fields "choices" with
      | none => pure []
      | some (.arr cs) => SlashOptionChoice.fromDictList cs
      | some _ => throw (.typeError "object is not iterable")
    let options ← match hopt : jLookup fields "options" with
      | none => pure []
      | some (.arr xs) => SlashOption.fromDictList xs
      | some _ => throw (.typeError "object is not iterable")
    let tRaw ← match jLookup fields "type" with
      | some v => pure v
      | none => throw (.keyError "type")
    let t ← SlashOptionType.ofValue tRaw
    let n ← match jLookup fields "name" with
      | some (.str s) => pure s
      | some _ => throw (.typeError "name")
      | none => throw (.keyError "name")
    let d ← match jLookup fields "description" with
      | some (.str s) => pure s
      | some _ => throw (.typeError "description")
      | none => throw (.keyError "description")
    let r := match jLookup fields "required" with
      | some (.bool b) => b
      | some v => pyTruthy v
      | none => false
    pure (.mk t n d r choices options)
  | _ => throw (.attributeError "get")
termination_by sizeOf j
decreasing_by
  have := sizeOf_jLookup_lt fields "options" (.arr xs) hopt
  simp at this ⊢
  omega

/-- The `[cls.from_dict(option) for option in ...]` comprehension. -/
def SlashOption.fromDictList : List JValue → Except PyErr (List SlashOption)
  | [] => .ok []
  | x :: rest => do
    let o ← SlashOption.from_dict x
    let os ← SlashOption.fromDictList rest
    pure (o :: os)
termination_by l => sizeOf l
decreasing_by
  all_goals simp
  omega

end

/-- Embedding of `SlashCommand`'s data fields (the `state`/`http` handles are
external collaborators). -/
structure SlashCommand where
  id : Option Int
  application_id : Option Int
  name : String
  description : String
  guild_id : Option Int
  options : List SlashOption

/-- JSON form of an optional snowflake, as stored by `to_dict`. -/
def optIntJ : Option Int → JValue
  | some n => .int n
  | none => .null

/-- Embedding of `SlashCommand.to_dict`: full state including identity, in
source key order. -/
def SlashCommand.to_dict (c : SlashCommand) : JValue :=
  .obj [("id", optIntJ c.id),
        ("application_id", optIntJ c.application_id),
        ("name", .str c.name),
        ("description", .str c.description),
        ("options", .arr (SlashOption.toDictList c.options)),
        ("guild_id", optIntJ c.guild_id)]

/-- Embedding of `SlashCommand.from_dict`: snowflake fields through
`_get_as_snowflake`, required `name`/`description`, options defaulting to
empty. -/
def SlashCommand.from_dict (data : JValue) : Except PyErr SlashCommand := do
  let id ← getAsSnowflake data "id"
  let application_id ← getAsSnowflake data "application_id"
  let nameV ← getItem data "name"
  let descriptionV ← getItem data "description"
  let optionsRaw ← jGetD data "options" (.arr [])
  let options ← match optionsRaw with
    | .arr xs => SlashOption.fromDictList xs
    | _ => throw (.typeError "object is not iterable")
  let guild_id ← getAsSnowflake data "guild_id"
  match nameV, descriptionV with
  | .str n, .str d => pure ⟨id, application_id, n, d, guild_id, options⟩
  | _, _ => throw (.typeError "str fields")

/-! ## Command cache, sentinel, and deletion (`_state.py`, `slash_commands.py`) -/

/-- Embedding of the `UnknownCommand` placeholder. -/
structure UnknownCommandS where
  id : Option Int

/-- Python `repr` of an optional int (`None` or the digits). -/
def pyReprOptInt : Option Int → String
  | some n => toString n
  | none => "None"

/-- Embedding of `UnknownCommand.__repr__`. -/
def UnknownCommandS.repr (u : UnknownCommandS) : String :=
  "UnknownCommand(id=" ++ pyReprOptInt u.id ++ ")"

/-- Embedding of `UnknownCommand.__bool__`: always falsy. -/
def UnknownCommandS.bool (_ : UnknownCommandS) : Bool := false

/-- Embedding of the `UnknownCommand.name` property. -/
def UnknownCommandS.name (u : UnknownCommandS) : String := u.repr

/-- Embedding of the `UnknownCommand.qualified_name` property. -/
def UnknownCommandS.qualified_name (u : UnknownCommandS) : String := u.repr

/-- The in-memory command cache, a mapping from command id to command. -/
def CommandCache := Int → Option SlashCommand

/-- The persisted command map kept in the configuration store, from command
id to the serialized command. -/
def ConfigCommands := Int → Option JValue

/-- The Python value `InteractionState.get_command` can evaluate to, and what
the `InteractionCommand.command` property substitutes for it. -/
inductive PyLookup where
  | pynone
  | cmd (c : SlashCommand)
  | unknown (u : UnknownCommandS)

/-- Embedding of `InteractionState.get_command`: `command_cache.get(id)`,
which is the cached command or `None` — never a sentinel and never an
error. -/
def get_command (cache : CommandCache) (command_id : Int) : PyLookup :=
  match cache command_id with
  | some c => .cmd c
  | none => .pynone

/-- Embedding of the `InteractionCommand.command` property:
`state.get_command(command_id) or UnknownCommand(id=command_id)` — a cached
command is truthy and returned as-is, `None` is falsy so the sentinel is
substituted. -/
def command_property (cache : CommandCache) (command_id : Int) : PyLookup :=
  match get_command cache command_id with
  | .pynone => .unknown ⟨some command_id⟩
  | r => r

/-- Embedding of `SlashCommand.add_to_cache`. -/
def add_to_cache (cache : CommandCache) (c : SlashCommand) : CommandCache :=
  match c.id with
  | some n => fun i => if i = n then some c else cache i
  | none => cache

/-- Embedding of `SlashCommand.remove_from_cache`: `del` with the `KeyError`
swallowed, so a missing (or `None`) id leaves the cache unchanged. -/
def remove_from_cache (cache : CommandCache) (id : Option Int) : CommandCache :=
  match id with
  | some n => fun i => if i = n then none else cache i
  | none => cache

/-- Embedding of the `del commands[self.id]` at the end of
`SlashCommand.delete`, with its `KeyError` swallowed. -/
def config_del (cfg : ConfigCommands) (id : Option Int) : ConfigCommands :=
  match id with
  | some n => fun i => if i = n then none else cfg i
  | none => cfg

/-- Embedding of `SlashCommand.delete`: evict from the in-memory cache, issue
the HTTP removal (external transport, assumed to succeed), then delete the
persisted entry. Returns the resulting cache and persisted map. -/
def SlashCommand.delete (cache : CommandCache) (cfg : ConfigCommands)
    (c : SlashCommand) : CommandCache × ConfigCommands :=
  let cache' := remove_from_cache cache c.id
  let cfg' := config_del cfg c.id
  (cache', cfg')

/-! ## Message components (`models/components.py`) -/

/-- Embedding of the `ButtonStyle` enum. -/
inductive ButtonStyle where
  | blurple
  | grey
  | green
  | red
  | link
deriving DecidableEq

/-- Embedding of the `Component` fields `from_dict` would populate. -/
inductive Component where
  | mk (type : JValue) (components : List Component) (style : Option ButtonStyle)
       (label : JValue) (custom_id : JValue) (url : JValue)

/-- Embedding of the expression `data.pop["type"]`: it subscripts the bound
method `dict.pop` instead of calling it, which raises `TypeError`
unconditionally, whatever `data` holds. -/
def method_subscript (_self : JValue) (_method : String) (_key : JValue) :
    Except PyErr JValue :=
  .error (.typeError "builtin_function_or_method object is not subscriptable")

/-- Embedding of the two-positional-argument enum call
`ButtonStyle(data.get("style"), 1)`: with a second positional argument the
enum metaclass takes the functional-API path, which fails on these
arguments. (Unreachable: `Component.from_dict` raises on its first
statement.) -/
def buttonStyleCall2 (_value : JValue) (_names : Int) : Except PyErr ButtonStyle :=
  .error (.typeError "enum functional API misuse")

mutual

/-- Embedding of `Component.from_dict`, in source statement order. The first
statement is `type = data.pop["type"]`, whose evaluation raises before
anything else runs; the remaining statements are embedded for fidelity but
are unreachable. -/
def Component.from_dict (data : JValue) : Except PyErr Component :=
  match data with
  | .obj fields => do
    let type ← method_subscript data "pop" (.str "type")
    let components ← match hcmp : jLookup fields "components" with
      | none => pure []
      | some (.arr cs) => Component.fromDictList cs
      | some _ => throw (.typeError "object is not iterable")
    let style ← buttonStyleCall2 ((jLookup fields "style").getD .null) 1
    let label := (jLookup fields "label").getD .null
    let custom_id := (jLookup fields "custom_id").getD .null
    let url := (jLookup fields "url").getD .null
    pure (.mk type components (some style) label custom_id url)
  | _ => do
    let type ← method_subscript data "pop" (.str "type")
    pure (.mk type [] none .null .null .null)
termination_by sizeOf data
decreasing_by
  have := sizeOf_jLookup_lt fields "components" (.arr cs) hcmp
  simp at this ⊢
  omega

/-- The `[cls.from_dict(c) for c in data.get("components", [])]`
comprehension. -/
def Component.fromDictList : List JValue → Except PyErr (List Component)
  | [] => .ok []
  | x :: rest => do
    let c ← Component.from_dict x
    let cs ← Component.fromDictList rest
    pure (c :: cs)
termination_by l => sizeOf l
decreasing_by
  all_goals simp
  omega

end

/-! ## Generic monadic reduction lemmas -/

@[simp] theorem exceptBind_ok {α β ε : Type _} (a : α) (f : α → Except ε β) :
    (Except.ok a >>= f) = f a := rfl

@[simp] theorem exceptBind_error {α β ε : Type _} (e : ε) (f : α → Except ε β) :
    ((Except.error e : Except ε α) >>= f) = .error e := rfl

@[simp] theorem exceptPure_eq_ok {α ε : Type _} (a : α) :
    (pure a : Except ε α) = .ok a := rfl

/-! ## Settling the claims -/

/-- An empty discord cache state, used as the ambient state of concrete
dispatch runs. -/
def st0 : DiscordState := ⟨[], [], []⟩

/-- C10: for every input dict, `Component.from_dict` raises before
constructing anything — `data.pop["type"]` subscripts the bound method
`dict.pop` instead of calling it, an unconditional `TypeError` — so a
`Component` can never be reconstructed from serialized data via
`from_dict`. -/
theorem c10_component_from_dict_always_raises (data : JValue) :
    Component.from_dict data =
      .error (.typeError "builtin_function_or_method object is not subscriptable") := by
  cases data <;> simp [Component.from_dict, method_subscript]

/-- C8 counterexample: on an empty command cache, `get_command 5` evaluates
to Python `None`, not to the `UnknownCommand` sentinel the claim promises. -/
theorem c8_counterexample :
    get_command (fun _ => none) 5 = PyLookup.pynone ∧
    PyLookup.pynone ≠ PyLookup.unknown ⟨some 5⟩ :=
  ⟨rfl, fun h => PyLookup.noConfusion h⟩

/-- C8 (amended): `get_command` on a missing id returns `None` (no error);
the unknown-command sentinel is substituted by the `InteractionCommand.command`
property, and that sentinel is falsy, with `repr`, `name` and
`qualified_name` all identifying the missing id. -/
theorem c8_cache_miss_sentinel (cache : CommandCache) (i : Int)
    (h : cache i = none) :
    get_command cache i = .pynone ∧
    command_property cache i = .unknown ⟨some i⟩ ∧
    UnknownCommandS.bool ⟨some i⟩ = false ∧
    UnknownCommandS.repr ⟨some i⟩ = "UnknownCommand(id=" ++ toString i ++ ")" ∧
    UnknownCommandS.name ⟨some i⟩ = UnknownCommandS.repr ⟨some i⟩ ∧
    UnknownCommandS.qualified_name ⟨some i⟩ = UnknownCommandS.repr ⟨some i⟩ := by
  have hg : get_command cache i = .pynone := by
    unfold get_command
    rw [h]
  refine ⟨hg, ?_, rfl, rfl, rfl, rfl⟩
  unfold command_property
  rw [hg]

/-- Witness for C8: the amended statement evaluated on the empty cache at
id 5. -/
theorem c8_cache_miss_sentinel_witness :
    ((fun _ => none : CommandCache) 5 = none) ∧
    (get_command (fun _ => none) 5 = .pynone ∧
     command_property (fun _ => none) 5 = .unknown ⟨some 5⟩ ∧
     UnknownCommandS.bool ⟨some 5⟩ = false ∧
     UnknownCommandS.repr ⟨some 5⟩ = "UnknownCommand(id=" ++ toString (5 : Int) ++ ")" ∧
     UnknownCommandS.name ⟨some 5⟩ = UnknownCommandS.repr ⟨some 5⟩ ∧
     UnknownCommandS.qualified_name ⟨some 5⟩ = UnknownCommandS.repr ⟨some 5⟩) :=
  ⟨rfl, c8_cache_miss_sentinel (fun _ => none) 5 rfl⟩

/-- C9: after `SlashCommand.delete` completes on a command with an assigned
id, that id is absent from both the in-memory command cache and the persisted
command map. -/
theorem c9_delete_removes_both (cache : CommandCache) (cfg : ConfigCommands)
    (c : SlashCommand) (n : Int) (h : c.id = some n) :
    (SlashCommand.delete cache cfg c).1 n = none ∧
    (SlashCommand.delete cache cfg c).2 n = none := by
  unfold SlashCommand.delete remove_from_cache config_del
  rw [h]
  simp

/-- Witness for C9: deleting a concrete cached command with id 7. -/
theorem c9_delete_removes_both_witness :
    (SlashCommand.mk (some 7) none "ping" "a ping command" none []).id = some 7 ∧
    ((SlashCommand.delete
        (fun i => if i = 7 then some (SlashCommand.mk (some 7) none "ping" "a ping command" none []) else none)
        (fun i => if i = 7 then some (.obj []) else none)
        (SlashCommand.mk (some 7) none "ping" "a ping command" none [])).1 7 = none ∧
     (SlashCommand.delete
        (fun i => if i = 7 then some (SlashCommand.mk (some 7) none "ping" "a ping command" none []) else none)
        (fun i => if i = 7 then some (.obj []) else none)
        (SlashCommand.mk (some 7) none "ping" "a ping command" none [])).2 7 = none) :=
  ⟨rfl, c9_delete_removes_both _ _ _ 7 rfl⟩

/-- C4: every successful `send_message` call targets the interaction-callback
route with a `type`-discriminated envelope exactly when the caller passed
`initial_response = true`, and the webhook route with a bare, `type`-free
payload exactly when the caller passed `initial_response = false`; the route
is the stated function of that flag alone, so the branch is never re-derived
inside the client. -/
theorem c4_send_message_branch (application_id : Int)
    (bot_allowed_mentions : Option JValue) (token : String) (interaction_id : Int)
    (type : InteractionCallbackType) (initial_response : Bool)
    (content : Option String) (embed : Option JValue) (embeds : List JValue)
    (tts : Bool) (allowed_mentions : Option JValue) (flags : Option Int)
    (components : Option (List JValue)) (req : Request)
    (h : send_message application_id bot_allowed_mentions token interaction_id type
      initial_response content embed embeds tts allowed_mentions flags components
      = .ok req) :
    req.url = (if initial_response then callbackRoute else webhookRoute) ∧
    req.method = "POST" ∧
    (initial_response = true → req.bodyHasKey "type" = true) ∧
    (initial_response = false → req.bodyHasKey "type" = false) :=
  send_message_spec application_id bot_allowed_mentions token interaction_id type
    initial_response content embed embeds tts allowed_mentions flags components req h

/-- The request produced by the concrete `send_message` call of the C4
witness. -/
def c4Request : Request :=
  { method := "POST", url := callbackRoute, interaction_id := some 2,
    token := "t", application_id := some 1, message_id := none,
    body := some (.obj [("type", .int 4)]) }

/-- Witness for C4: a concrete initial-acknowledgment call. -/
theorem c4_send_message_branch_witness :
    send_message 1 none "t" 2 .channel_message_with_source true none none [] false
      none none none = .ok c4Request ∧
    (c4Request.url = (if true then callbackRoute else webhookRoute) ∧
     c4Request.method = "POST" ∧
     (true = true → c4Request.bodyHasKey "type" = true) ∧
     (true = false → c4Request.bodyHasKey "type" = false)) :=
  ⟨rfl, c4_send_message_branch 1 none "t" 2 .channel_message_with_source true none
    none [] false none none none c4Request rfl⟩

/-- The spec's malformed-payload scenario: `type=2` with the required
`data.id` missing. -/
def scenario_payload : JValue :=
  .obj [("type", .int 2), ("id", .int 1), ("version", .int 1), ("token", .str "t"),
        ("user", .obj [("id", .int 9)]),
        ("data", .obj [("name", .str "ping")])]

/-- C2 counterexample: two exception paths escape the dispatcher. The
`data["type"]` lookup sits before the `try:` block, so a payload with no
`type` key raises `KeyError` out of `parse_interaction_create`; and
`handlers.get` hashes the looked-up value, also before the `try:`, so a
payload whose `type` is a list raises `TypeError` out of the dispatcher —
the trap does not cover all exception paths. -/
theorem c2_counterexample :
    parse_interaction_create st0 (.obj []) = .error (.keyError "type") ∧
    parse_interaction_create st0 (.obj [("type", .arr [])]) =
      .error (.typeError "unhashable type") :=
  ⟨rfl, rfl⟩

/-- C2 (amended): once the payload carries a `type` key with a hashable
value, every exception raised while constructing or routing the typed event
is caught (and recorded for the log), so `parse_interaction_create` returns
normally; in particular the `type=2`-with-missing-`data.id` scenario returns
no events and a caught `KeyError` on the missing id. The pre-`try`
`data["type"]` lookup and `handlers.get` key hashing are outside the guard:
a missing `type` key or an unhashable `type` value raises out of the
dispatcher (see the counterexample). -/
theorem c2_dispatcher_catches (st : DiscordState) (data : JValue) (t : JValue)
    (h : getItem data "type" = .ok t) (hh : pyHashable t = true) :
    (∃ r : DispatchResult, parse_interaction_create st data = .ok r) ∧
    (∀ st2 : DiscordState, parse_interaction_create st2 scenario_payload =
      .ok ⟨[], st2, some (.keyError "id")⟩) := by
  constructor
  · have hk : ∃ k, handlersLookup t = .ok k := by
      unfold handlersLookup
      rw [hh, if_pos rfl]
      exact ⟨_, rfl⟩
    obtain ⟨k, hk⟩ := hk
    unfold parse_interaction_create
    rw [h, exceptBind_ok, hk, exceptBind_ok]
    match hrun : run_handler k st data with
    | .ok (evs, st') => exact ⟨⟨evs, st', none⟩, rfl⟩
    | .error e => exact ⟨⟨[], st, some e⟩, rfl⟩
  · intro st2
    rfl

/-- Witness for C2: the amended statement evaluated on the scenario payload
itself. -/
theorem c2_dispatcher_catches_witness :
    getItem scenario_payload "type" = .ok (.int 2) ∧
    pyHashable (.int 2) = true ∧
    ((∃ r : DispatchResult, parse_interaction_create st0 scenario_payload = .ok r) ∧
     (∀ st2 : DiscordState, parse_interaction_create st2 scenario_payload =
       .ok ⟨[], st2, some (.keyError "id")⟩)) :=
  ⟨rfl, rfl, c2_dispatcher_catches st0 scenario_payload (.int 2) rfl rfl⟩

/-- C3 counterexample: a payload whose `type` is a list does not fall back to
the slash-command handling path — the `handlers.get` key hashing raises
`TypeError` out of the dispatcher instead, so "any other type value falls
back (no ignore/error branch)" is false of the program. -/
theorem c3_counterexample :
    handlersLookup (.arr []) = .error (.typeError "unhashable type") ∧
    handlersLookup (.arr []) ≠ .ok .slash ∧
    parse_interaction_create st0 (.obj [("type", .arr [])]) =
      .error (.typeError "unhashable type") :=
  ⟨rfl, fun h => Except.noConfusion h, rfl⟩

/-- C3 (amended): a payload whose `type` is `2` and whose
`InteractionCommand` construction succeeds yields exactly one
`red_slash_interaction` event; `3` with a successful `InteractionButton`
construction yields exactly one `red_button_interaction` event; the handler
table sends `2` to the slash handler and every other hashable discriminator
falls back to that same slash handler, while an unhashable `type` value (a
list or dict) raises `TypeError` out of the dispatcher instead of falling
back (see the counterexample). -/
theorem c3_dispatch_routing :
    (∀ (st : DiscordState) (data : JValue) (cmd : InteractionCommandS)
        (st' : DiscordState),
      getItem data "type" = .ok (.int 2) →
      mkInteractionCommand st data = .ok (cmd, st') →
      parse_interaction_create st data =
        .ok ⟨[.red_slash_interaction cmd], st', none⟩) ∧
    (∀ (st : DiscordState) (data : JValue) (btn : InteractionButtonS)
        (st' : DiscordState),
      getItem data "type" = .ok (.int 3) →
      mkInteractionButton st data = .ok (btn, st') →
      parse_interaction_create st data =
        .ok ⟨[.red_button_interaction btn], st', none⟩) ∧
    handlersLookup (.int 2) = .ok .slash ∧
    handlersLookup (.int 3) = .ok .button ∧
    (∀ t : JValue, t ≠ .int 3 → pyHashable t = true →
      handlersLookup t = .ok .slash) := by
  refine ⟨?_, ?_, rfl, rfl, ?_⟩
  · intro st data cmd st' ht hmk
    unfold parse_interaction_create
    rw [ht, exceptBind_ok]
    have h2 : handlersLookup (.int 2) = .ok .slash := rfl
    rw [h2, exceptBind_ok]
    show (match run_handler .slash st data with
      | .ok (evs, st') => pure ⟨evs, st', none⟩
      | .error e => pure ⟨[], st, some e⟩ : Except PyErr DispatchResult) = _
    unfold run_handler handle_slash_interaction
    rw [hmk, exceptBind_ok]
    rfl
  · intro st data btn st' ht hmk
    unfold parse_interaction_create
    rw [ht, exceptBind_ok]
    have h3 : handlersLookup (.int 3) = .ok .button := rfl
    rw [h3, exceptBind_ok]
    show (match run_handler .button st data with
      | .ok (evs, st') => pure ⟨evs, st', none⟩
      | .error e => pure ⟨[], st, some e⟩ : Except PyErr DispatchResult) = _
    unfold run_handler handle_button_interaction
    rw [hmk, exceptBind_ok]
    rfl
  · intro t ht hh
    unfold handlersLookup
    rw [hh, if_pos rfl]
    split
    · exact absurd rfl ht
    · rfl

/-- A well-formed slash-command payload (DM context, no options). -/
def slash_payload : JValue :=
  .obj [("type", .int 2), ("id", .int 1), ("version", .int 1), ("token", .str "t"),
        ("user", .obj [("id", .int 9)]),
        ("data", .obj [("id", .int 55), ("name", .str "ping")])]

/-- The `InteractionCommand` constructed from `slash_payload`. -/
def slash_cmd : InteractionCommandS :=
  ⟨⟨1, .int 1, .str "t", none, none, none, 9, .user 9,
    .obj [("id", .int 55), ("name", .str "ping")]⟩, .str "ping", 55, []⟩

/-- A well-formed button payload (DM context). -/
def button_payload : JValue :=
  .obj [("type", .int 3), ("id", .int 2), ("version", .int 1), ("token", .str "t"),
        ("user", .obj [("id", .int 9)]),
        ("data", .obj [("custom_id", .str "x"), ("component_type", .int 2)]),
        ("message", .obj [("id", .int 10)])]

/-- The `InteractionButton` constructed from `button_payload`. -/
def button_btn : InteractionButtonS :=
  ⟨⟨2, .int 1, .str "t", none, none, none, 9, .user 9,
    .obj [("custom_id", .str "x"), ("component_type", .int 2)]⟩,
   .str "x", .int 2, some 10⟩

/-- Witness for C3: concrete type-2 and type-3 dispatches, and a non-int
discriminator falling back to the slash handler. -/
theorem c3_dispatch_routing_witness :
    getItem slash_payload "type" = .ok (.int 2) ∧
    mkInteractionCommand st0 slash_payload = .ok (slash_cmd, st0) ∧
    parse_interaction_create st0 slash_payload =
      .ok ⟨[.red_slash_interaction slash_cmd], st0, none⟩ ∧
    getItem button_payload "type" = .ok (.int 3) ∧
    mkInteractionButton st0 button_payload = .ok (button_btn, st0) ∧
    parse_interaction_create st0 button_payload =
      .ok ⟨[.red_button_interaction button_btn], st0, none⟩ ∧
    (.str "x" : JValue) ≠ .int 3 ∧
    pyHashable (.str "x") = true ∧
    handlersLookup (.str "x") = .ok .slash :=
  ⟨rfl, rfl, c3_dispatch_routing.1 st0 slash_payload slash_cmd st0 rfl rfl,
   rfl, rfl, c3_dispatch_routing.2.1 st0 button_payload button_btn st0 rfl rfl,
   fun h => JValue.noConfusion h, rfl,
   c3_dispatch_routing.2.2.2.2 (.str "x") (fun h => JValue.noConfusion h) rfl⟩

/-- Every option produced by `ResponseOption.from_dict` starts with its raw
wire value. -/
theorem from_dict_value_raw (o : JValue) (opt : ResponseOption)
    (h : ResponseOption.from_dict o = .ok opt) : ∃ v, opt.value = .raw v := by
  unfold ResponseOption.from_dict at h
  match h0 : jGetD o "type" (.int 3) with
  | .error e => rw [h0] at h; cases h
  | .ok tRaw =>
    rw [h0, exceptBind_ok] at h
    match h1 : SlashOptionType.ofValue tRaw with
    | .error e => rw [h1] at h; cases h
    | .ok t =>
      rw [h1, exceptBind_ok] at h
      match h2 : getItem o "name" with
      | .error e => rw [h2] at h; cases h
      | .ok nm =>
        rw [h2, exceptBind_ok] at h
        match h3 : getItem o "value" with
        | .error e => rw [h3] at h; cases h
        | .ok v =>
          rw [h3, exceptBind_ok] at h
          cases h
          exact ⟨v, rfl⟩

/-- C7: when the per-type resolution handler for an option raises, the
failure is recorded for the log, the option is still appended carrying the
raw unresolved value `from_dict` gave it, and `_parse_options` (and hence
`InteractionCommand` construction) proceeds exactly as it does on the
remaining options. -/
theorem c7_handler_failure_policy (st : DiscordState) (guild_id : Option Int)
    (o : JValue) (rest : List JValue) (resolved : JValue)
    (option : ResponseOption)
    (handler : DiscordState → Option Int → JValue → ResponseOption → JValue →
      Except PyErr (ResponseOption × DiscordState)) (e : PyErr)
    (hfd : ResponseOption.from_dict o = .ok option)
    (hh : option_handler option.type = some handler)
    (he : handler st guild_id o option resolved = .error e) :
    (∃ v, option.value = .raw v) ∧
    _parse_options st guild_id (o :: rest) resolved =
      (match _parse_options st guild_id rest resolved with
       | .ok (opts, stF, logs) => .ok (option :: opts, stF, e :: logs)
       | .error e2 => .error e2) := by
  refine ⟨from_dict_value_raw o option hfd, ?_⟩
  conv_lhs => unfold _parse_options
  simp only [hfd, hh, he]
  match hrest : _parse_options st guild_id rest resolved with
  | .ok (opts, stF, logs) => rfl
  | .error e2 => rfl

/-- The option dict of the C7 witness: a channel option whose resolution will
fail. -/
def c7_option_payload : JValue :=
  .obj [("type", .int 7), ("name", .str "c"), ("value", .str "5")]

/-- The parsed (still raw) response option of the C7 witness. -/
def c7_option : ResponseOption := ⟨.CHANNEL, .str "c", .raw (.str "5")⟩

/-- Witness for C7: a channel option against an empty `resolved` bundle; the
handler raises `KeyError("channels")`, the option is appended raw, parsing
succeeds. -/
theorem c7_handler_failure_policy_witness :
    ResponseOption.from_dict c7_option_payload = .ok c7_option ∧
    option_handler c7_option.type = some _handle_option_channel ∧
    _handle_option_channel st0 none c7_option_payload c7_option (.obj []) =
      .error (.keyError "channels") ∧
    ((∃ v, c7_option.value = .raw v) ∧
     _parse_options st0 none (c7_option_payload :: []) (.obj []) =
       (match _parse_options st0 none [] (.obj []) with
        | .ok (opts, stF, logs) => .ok (c7_option :: opts, stF, .keyError "channels" :: logs)
        | .error e2 => .error e2)) :=
  ⟨rfl, rfl, rfl,
   c7_handler_failure_policy st0 none c7_option_payload [] (.obj []) c7_option
     _handle_option_channel (.keyError "channels") rfl rfl rfl⟩

/-- A DM-context type-2 payload carrying a ROLE option whose id is present in
the `resolved` bundle. -/
def dm_role_payload : JValue :=
  .obj [("type", .int 2), ("id", .int 1), ("version", .int 1), ("token", .str "t"),
        ("user", .obj [("id", .int 9)]),
        ("data", .obj [("id", .int 55), ("name", .str "give"),
          ("options", .arr [.obj [("type", .int 8), ("name", .str "r"),
            ("value", .str "77")]]),
          ("resolved", .obj [("roles", .obj [("77", .obj [("id", .str "77")])])])])]

/-- C6 counterexample: parsing `dm_role_payload` succeeds with no handler
error, yet the ROLE option's value is still the raw string id `"77"`, because
`_handle_option_role` only calls `set_value` inside its `if self.guild_id:`
block — refuting the claim for ROLE options in a DM context even when the id
is present in the resolved bundle. -/
theorem c6_counterexample :
    mkInteractionCommand st0 dm_role_payload =
      .ok (⟨⟨1, .int 1, .str "t", none, none, none, 9, .user 9,
        .obj [("id", .int 55), ("name", .str "give"),
          ("options", .arr [.obj [("type", .int 8), ("name", .str "r"),
            ("value", .str "77")]]),
          ("resolved", .obj [("roles", .obj [("77", .obj [("id", .str "77")])])])]⟩,
        .str "give", 55, [⟨.ROLE, .str "r", .raw (.str "77")⟩]⟩, st0) ∧
    OptValue.isRaw (OptValue.raw (.str "77")) = true :=
  ⟨rfl, rfl⟩

/-- C6 (amended): an option whose id parses and is present in the event's
resolved bundle is resolved to a populated domain object by the CHANNEL and
USER handlers in both guild context (guild present in the bot cache) and DM
context, and by the ROLE handler in guild context; a ROLE option in a DM
context keeps its raw value (see the counterexample). -/
theorem c6_option_resolution :
    (∀ (st : DiscordState) (gid : Int) (g : GuildS) (o : JValue)
        (opt : ResponseOption) (res v sec entry : JValue) (n : Int),
      gid ≠ 0 → get_guild st gid = some g →
      getItem o "value" = .ok v → pyInt v = .ok n →
      getItem res "channels" = .ok sec → getItemV sec v = .ok entry →
      _handle_option_channel st (some gid) o opt res =
        .ok ({ opt with value := .resolved (.guildChannel gid n) }, st)) ∧
    (∀ (st : DiscordState) (o : JValue) (opt : ResponseOption)
        (res v sec entry : JValue) (n : Int),
      getItem o "value" = .ok v → pyInt v = .ok n →
      getItem res "channels" = .ok sec → getItemV sec v = .ok entry →
      _handle_option_channel st none o opt res =
        .ok ({ opt with value := .resolved (.dmChannel n) }, st)) ∧
    (∀ (st : DiscordState) (gid : Int) (g : GuildS) (o : JValue)
        (opt : ResponseOption) (res v sec entry : JValue) (n : Int),
      gid ≠ 0 → get_guild st gid = some g →
      getItem o "value" = .ok v → pyInt v = .ok n →
      getItem res "users" = .ok sec → getItemV sec v = .ok entry →
      ∃ st', _handle_option_user st (some gid) o opt res =
        .ok ({ opt with value := .resolved (.member gid n) }, st')) ∧
    (∀ (st : DiscordState) (o : JValue) (opt : ResponseOption)
        (res v sec entry : JValue) (n : Int),
      getItem o "value" = .ok v → pyInt v = .ok n →
      getItem res "users" = .ok sec → getItemV sec v = .ok entry →
      _handle_option_user st none o opt res =
        .ok ({ opt with value := .resolved (.user n) }, store_user st n)) ∧
    (∀ (st : DiscordState) (gid : Int) (g : GuildS) (o : JValue)
        (opt : ResponseOption) (res v sec entry : JValue) (n : Int),
      gid ≠ 0 → get_guild st gid = some g →
      getItem o "value" = .ok v → pyInt v = .ok n →
      getItem res "roles" = .ok sec → getItemV sec v = .ok entry →
      ∃ st', _handle_option_role st (some gid) o opt res =
        .ok ({ opt with value := .resolved (.role gid n) }, st')) := by
  have htruthy : ∀ (gid : Int), gid ≠ 0 → optIntTruthy (some gid) = true := by
    intro gid h
    simp [optIntTruthy, h]
  refine ⟨?_, ?_, ?_, ?_, ?_⟩
  · intro st gid g o opt res v sec entry n hgid hg hv hn hsec hentry
    unfold _handle_option_channel
    rw [hv, exceptBind_ok, hn, exceptBind_ok, hsec, exceptBind_ok, hentry,
      exceptBind_ok, htruthy gid hgid]
    simp only [if_true, Option.getD, hg]
    split <;> rfl
  · intro st o opt res v sec entry n hv hn hsec hentry
    unfold _handle_option_channel
    rw [hv, exceptBind_ok, hn, exceptBind_ok, hsec, exceptBind_ok, hentry,
      exceptBind_ok]
    simp only [optIntTruthy, Bool.false_eq_true, if_false]
    split <;> rfl
  · intro st gid g o opt res v sec entry n hgid hg hv hn hsec hentry
    unfold _handle_option_user
    rw [hv, exceptBind_ok, hn, exceptBind_ok, hsec, exceptBind_ok, hentry,
      exceptBind_ok, htruthy gid hgid]
    simp only [if_true, Option.getD, hg]
    split
    · exact ⟨st, rfl⟩
    · exact ⟨add_member st gid n, rfl⟩
  · intro st o opt res v sec entry n hv hn hsec hentry
    unfold _handle_option_user
    rw [hv, exceptBind_ok, hn, exceptBind_ok, hsec, exceptBind_ok, hentry,
      exceptBind_ok]
    simp only [optIntTruthy, Bool.false_eq_true, if_false]
    rfl
  · intro st gid g o opt res v sec entry n hgid hg hv hn hsec hentry
    unfold _handle_option_role
    rw [hv, exceptBind_ok, hn, exceptBind_ok, hsec, exceptBind_ok, hentry,
      exceptBind_ok, htruthy gid hgid]
    simp only [if_true, Option.getD, hg]
    split
    · exact ⟨st, rfl⟩
    · exact ⟨add_role st gid n, rfl⟩

/-- A one-guild cache state for the C6 witness. -/
def st1 : DiscordState := ⟨[(4, ⟨[], [], []⟩)], [], []⟩

/-- Witness for C6: the amended statement's five cases evaluated on concrete
inputs (guild 4 cached, ids present in singleton resolved sections). -/
theorem c6_option_resolution_witness :
    ((4 : Int) ≠ 0 ∧ get_guild st1 4 = some ⟨[], [], []⟩ ∧
     getItem (.obj [("value", .str "77")]) "value" = .ok (.str "77") ∧
     pyInt (.str "77") = .ok 77 ∧
     getItem (.obj [("channels", .obj [("77", .obj [])])]) "channels" =
       .ok (.obj [("77", .obj [])]) ∧
     getItemV (.obj [("77", .obj [])]) (.str "77") = .ok (.obj [])) ∧
    _handle_option_channel st1 (some 4) (.obj [("value", .str "77")])
      ⟨.CHANNEL, .str "c", .raw (.str "77")⟩ (.obj [("channels", .obj [("77", .obj [])])]) =
      .ok (⟨.CHANNEL, .str "c", .resolved (.guildChannel 4 77)⟩, st1) ∧
    _handle_option_channel st0 none (.obj [("value", .str "77")])
      ⟨.CHANNEL, .str "c", .raw (.str "77")⟩ (.obj [("channels", .obj [("77", .obj [])])]) =
      .ok (⟨.CHANNEL, .str "c", .resolved (.dmChannel 77)⟩, st0) ∧
    (∃ st', _handle_option_user st1 (some 4) (.obj [("value", .str "77")])
      ⟨.USER, .str "u", .raw (.str "77")⟩ (.obj [("users", .obj [("77", .obj [])])]) =
      .ok (⟨.USER, .str "u", .resolved (.member 4 77)⟩, st')) ∧
    _handle_option_user st0 none (.obj [("value", .str "77")])
      ⟨.USER, .str "u", .raw (.str "77")⟩ (.obj [("users", .obj [("77", .obj [])])]) =
      .ok (⟨.USER, .str "u", .resolved (.user 77)⟩, store_user st0 77) ∧
    (∃ st', _handle_option_role st1 (some 4) (.obj [("value", .str "77")])
      ⟨.ROLE, .str "r", .raw (.str "77")⟩ (.obj [("roles", .obj [("77", .obj [])])]) =
      .ok (⟨.ROLE, .str "r", .resolved (.role 4 77)⟩, st')) :=
  ⟨⟨by decide, rfl, rfl, rfl, rfl, rfl⟩,
   c6_option_resolution.1 st1 4 ⟨[], [], []⟩ _ _ _ _ _ _ 77 (by decide) rfl rfl rfl rfl rfl,
   c6_option_resolution.2.1 st0 _ _ _ _ _ _ 77 rfl rfl rfl rfl,
   c6_option_resolution.2.2.1 st1 4 ⟨[], [], []⟩ _ _ _ _ _ _ 77 (by decide) rfl rfl rfl rfl rfl,
   c6_option_resolution.2.2.2.1 st0 _ _ _ _ _ _ 77 rfl rfl rfl rfl,
   c6_option_resolution.2.2.2.2 st1 4 ⟨[], [], []⟩ _ _ _ _ _ _ 77 (by decide) rfl rfl rfl rfl rfl⟩

/-- Elimination lemma for a successful `defer`: the single network call it
made, and the resulting flags. -/
theorem defer_ok_elim (ctx : RespCtx) (r : ResponseFlags) (hidden : Bool)
    (req : Request) (r' : ResponseFlags)
    (h : InteractionResponse.defer ctx r hidden = .ok (req, r')) :
    send_message ctx.application_id ctx.bot_allowed_mentions ctx.token
      ctx.interaction_id .deferred_channel_message_with_source (!r.sent) none none
      [] false none (if hidden then some 64 else none) none = .ok req ∧
    r' = { r with sent := true, deferred := true } := by
  simp only [InteractionResponse.defer] at h
  match hm : send_message ctx.application_id ctx.bot_allowed_mentions ctx.token
      ctx.interaction_id .deferred_channel_message_with_source (!r.sent) none none
      [] false none (if hidden then some 64 else none) none with
  | .error e =>
    rw [hm, exceptBind_error] at h
    cases h
  | .ok q =>
    rw [hm, exceptBind_ok] at h
    simp only [exceptPure_eq_ok, Except.ok.injEq, Prod.mk.injEq] at h
    obtain ⟨h1, h2⟩ := h
    exact ⟨by rw [h1], h2.symm⟩

/-- Elimination lemma for a successful `send`: the single network call it
made (with `initial = not sent` captured at call start), and that the
resulting flags always have `sent` and `completed` true. -/
theorem send_ok_elim (ctx : RespCtx) (r : ResponseFlags) (content : Option String)
    (embed : Option JValue) (embeds : List JValue) (tts : Bool)
    (allowed_mentions : Option JValue) (hidden : Bool) (req : Request)
    (r' : ResponseFlags)
    (h : InteractionResponse.send ctx r content embed embeds tts allowed_mentions
      hidden = .ok (req, r')) :
    send_message ctx.application_id ctx.bot_allowed_mentions ctx.token
      ctx.interaction_id .channel_message_with_source (!r.sent) content embed
      embeds tts allowed_mentions (if hidden then some 64 else none) none
      = .ok req ∧
    r'.sent = true ∧ r'.completed = true := by
  simp only [InteractionResponse.send] at h
  match hm : send_message ctx.application_id ctx.bot_allowed_mentions ctx.token
      ctx.interaction_id .channel_message_with_source (!r.sent) content embed
      embeds tts allowed_mentions (if hidden then some 64 else none) none with
  | .error e =>
    rw [hm, exceptBind_error] at h
    cases h
  | .ok q =>
    rw [hm, exceptBind_ok] at h
    simp only [exceptPure_eq_ok, Except.ok.injEq, Prod.mk.injEq] at h
    obtain ⟨h1, h2⟩ := h
    refine ⟨by rw [h1], ?_⟩
    rw [← h2]
    rcases r with ⟨s, d, c⟩
    cases s <;> cases c <;> simp

/-- C1 (amended): after `defer()` then `send(...)` on a fresh Response,
exactly two network calls are made — the model issues exactly one request per
operation — the first to the interaction-callback route carrying the `type`
discriminator envelope, the second to the webhook follow-up route
(`POST /webhooks/{application_id}/{token}`) with the bare payload and no
`type` field, in that order; more generally any `send` issued while
`sent=true` goes to that webhook follow-up route rather than a second
interaction-callback create. (The code never uses the edit-original-message
path for `send`; see the counterexample.) -/
theorem c1_response_lifecycle (ctx : RespCtx) (hidden1 hidden2 tts : Bool)
    (content : Option String) (embed : Option JValue) (embeds : List JValue)
    (allowed_mentions : Option JValue) (req1 req2 : Request)
    (r1 r2 : ResponseFlags)
    (hdefer : InteractionResponse.defer ctx freshResponse hidden1 = .ok (req1, r1))
    (hsend : InteractionResponse.send ctx r1 content embed embeds tts
      allowed_mentions hidden2 = .ok (req2, r2)) :
    req1.url = callbackRoute ∧ req1.method = "POST" ∧
    req1.bodyHasKey "type" = true ∧
    r1.sent = true ∧ r1.deferred = true ∧
    req2.url = webhookRoute ∧ req2.method = "POST" ∧
    req2.bodyHasKey "type" = false ∧
    r2.sent = true ∧ r2.completed = true ∧
    (∀ (r : ResponseFlags) (c : Option String) (e : Option JValue)
        (es : List JValue) (t h2 : Bool) (a : Option JValue) (rq : Request)
        (r' : ResponseFlags),
      r.sent = true →
      InteractionResponse.send ctx r c e es t a h2 = .ok (rq, r') →
      rq.url = webhookRoute ∧ rq.bodyHasKey "type" = false) := by
  obtain ⟨hm1, hr1⟩ := defer_ok_elim ctx freshResponse hidden1 req1 r1 hdefer
  have spec1 := send_message_spec _ _ _ _ _ _ _ _ _ _ _ _ _ _ hm1
  have hsent1 : r1.sent = true := by rw [hr1]
  obtain ⟨hm2, hsent2, hcomp2⟩ := send_ok_elim ctx r1 content embed embeds tts
    allowed_mentions hidden2 req2 r2 hsend
  rw [hsent1] at hm2
  have spec2 := send_message_spec _ _ _ _ _ _ _ _ _ _ _ _ _ _ hm2
  simp only [freshResponse, Bool.not_false, Bool.not_true, if_true, if_false,
    Bool.true_eq_false, Bool.false_eq_true, forall_const,
    false_implies, true_implies, and_true, true_and] at spec1 spec2
  refine ⟨spec1.1, spec1.2.1, spec1.2.2, hsent1, by rw [hr1], spec2.1, spec2.2.1,
    spec2.2.2, hsent2, hcomp2, ?_⟩
  intro r c e es t h2 a rq r' hrs hs
  obtain ⟨hm, _, _⟩ := send_ok_elim ctx r c e es t a h2 rq r' hs
  rw [hrs] at hm
  have spec := send_message_spec _ _ _ _ _ _ _ _ _ _ _ _ _ _ hm
  simp only [Bool.not_true, if_false, Bool.false_eq_true, false_implies,
    true_implies, Bool.true_eq_false, and_true, true_and, forall_const] at spec
  exact ⟨spec.1, spec.2.2⟩

/-- Per-response context of the concrete C1 runs: application id 1, a bot
allowed-mentions configuration present, token `"t"`, interaction id 10. -/
def ctx0 : RespCtx := ⟨1, some (.obj []), "t", 10⟩

/-- C1 counterexample: in the concrete `defer()`-then-`send("hi")` sequence
the second network call is a `POST` to the webhook follow-up route, which is
not the edit-original-message path (`PATCH .../messages/@original`, as built
by `edit_message` with `original=True`) that the claim names. -/
theorem c1_counterexample :
    (InteractionResponse.defer ctx0 freshResponse false).bind
      (fun p => (InteractionResponse.send ctx0 p.2 (some "hi") none [] false
        none false).map (fun q => (q.1.method, q.1.url))) =
      .ok ("POST", webhookRoute) ∧
    (edit_message 1 (some (.obj [])) "t" none none none none none true none).map
      (fun r => (r.method, r.url)) =
      .ok ("PATCH", "/webhooks/{application_id}/{token}/messages/@original") ∧
    webhookRoute ≠ "/webhooks/{application_id}/{token}/messages/@original" ∧
    ("POST" : String) ≠ "PATCH" :=
  ⟨rfl, rfl, by decide, by decide⟩

/-- First request of the concrete C1 witness run (the deferred ack). -/
def c1req1 : Request :=
  { method := "POST", url := callbackRoute, interaction_id := some 10,
    token := "t", application_id := some 1, message_id := none,
    body := some (.obj [("type", .int 5),
      ("data", .obj [("allowed_mentions", .obj [])])]) }

/-- Second request of the concrete C1 witness run (the follow-up send). -/
def c1req2 : Request :=
  { method := "POST", url := webhookRoute, interaction_id := some 10,
    token := "t", application_id := some 1, message_id := none,
    body := some (.obj [("content", .str "hi"), ("allowed_mentions", .obj [])]) }

/-- Witness for C1: the amended statement evaluated on the concrete
`defer()`-then-`send("hi")` run. -/
theorem c1_response_lifecycle_witness :
    InteractionResponse.defer ctx0 freshResponse false =
      .ok (c1req1, ⟨true, true, false⟩) ∧
    InteractionResponse.send ctx0 ⟨true, true, false⟩ (some "hi") none [] false
      none false = .ok (c1req2, ⟨true, true, true⟩) ∧
    (c1req1.url = callbackRoute ∧ c1req1.method = "POST" ∧
     c1req1.bodyHasKey "type" = true ∧
     (⟨true, true, false⟩ : ResponseFlags).sent = true ∧
     (⟨true, true, false⟩ : ResponseFlags).deferred = true ∧
     c1req2.url = webhookRoute ∧ c1req2.method = "POST" ∧
     c1req2.bodyHasKey "type" = false ∧
     (⟨true, true, true⟩ : ResponseFlags).sent = true ∧
     (⟨true, true, true⟩ : ResponseFlags).completed = true ∧
     (∀ (r : ResponseFlags) (c : Option String) (e : Option JValue)
         (es : List JValue) (t h2 : Bool) (a : Option JValue) (rq : Request)
         (r' : ResponseFlags),
       r.sent = true →
       InteractionResponse.send ctx0 r c e es t a h2 = .ok (rq, r') →
       rq.url = webhookRoute ∧ rq.bodyHasKey "type" = false)) :=
  ⟨rfl, rfl,
   c1_response_lifecycle ctx0 false false false (some "hi") none [] none
     c1req1 c1req2 ⟨true, true, false⟩ ⟨true, true, true⟩ rfl rfl⟩

/-- The enum call inverts `.value` on every member. -/
theorem SlashOptionType.ofValue_value (t : SlashOptionType) :
    SlashOptionType.ofValue (.int t.value) = .ok t := by
  cases t <;> rfl

/-- Choice serialization round-trips. -/
theorem SlashOptionChoice.choice_roundtrip (c : SlashOptionChoice) :
    SlashOptionChoice.from_dict (SlashOptionChoice.to_dict c) = .ok c := by
  obtain ⟨nm, v⟩ := c
  cases v <;> rfl

/-- Choice-list serialization round-trips. -/
theorem SlashOptionChoice.list_roundtrip (cs : List SlashOptionChoice) :
    SlashOptionChoice.fromDictList (cs.map SlashOptionChoice.to_dict) = .ok cs := by
  induction cs with
  | nil => rfl
  | cons c rest ih =>
    simp only [List.map_cons, SlashOptionChoice.fromDictList,
      SlashOptionChoice.choice_roundtrip, exceptBind_ok, ih, exceptPure_eq_ok]

/-- Option-list serialization round-trips, given that each element does. -/
theorem SlashOption.fromDictList_roundtrip (l : List SlashOption)
    (ih : ∀ o ∈ l, SlashOption.from_dict (SlashOption.to_dict o) = .ok o) :
    SlashOption.fromDictList (SlashOption.toDictList l) = .ok l := by
  induction l with
  | nil => simp [SlashOption.toDictList, SlashOption.fromDictList]
  | cons o rest ihr =>
    have h1 : SlashOption.from_dict (SlashOption.to_dict o) = .ok o :=
      ih o (List.mem_cons_self o rest)
    have h2 := ihr (fun o' ho' => ih o' (List.mem_cons_of_mem o ho'))
    simp only [SlashOption.toDictList, SlashOption.fromDictList, h1, h2,
      exceptBind_ok, exceptPure_eq_ok]

/-- Option serialization round-trips. -/
theorem SlashOption.option_roundtrip :
    ∀ (o : SlashOption), SlashOption.from_dict (SlashOption.to_dict o) = .ok o
  | .mk t n d r cs os => by
    have ih : ∀ o' ∈ os, SlashOption.from_dict (SlashOption.to_dict o') = .ok o' :=
      fun o' _ => SlashOption.option_roundtrip o'
    have hopts : SlashOption.fromDictList (SlashOption.toDictList os) = .ok os :=
      SlashOption.fromDictList_roundtrip os ih
    have hchoices := SlashOptionChoice.list_roundtrip cs
    cases cs with
    | nil =>
      cases os with
      | nil =>
        simp [SlashOption.to_dict, SlashOption.from_dict, jLookup,
          SlashOptionType.ofValue_value]
      | cons o2 os2 =>
        simp [SlashOption.to_dict, SlashOption.from_dict, jLookup,
          SlashOptionType.ofValue_value, hopts]
    | cons c2 cs2 =>
      cases os with
      | nil =>
        simp only [List.map_cons] at hchoices
        simp [SlashOption.to_dict, SlashOption.from_dict, jLookup,
          SlashOptionType.ofValue_value, hchoices]
      | cons o2 os2 =>
        simp only [List.map_cons] at hchoices
        simp [SlashOption.to_dict, SlashOption.from_dict, jLookup,
          SlashOptionType.ofValue_value, hchoices, hopts]
termination_by o => sizeOf o
decreasing_by
  have := List.sizeOf_lt_of_mem (by assumption : o' ∈ os)
  simp
  omega

/-- Full command serialization round-trips exactly. -/
theorem SlashCommand.command_roundtrip (c : SlashCommand) :
    SlashCommand.from_dict (SlashCommand.to_dict c) = .ok c := by
  obtain ⟨id, app, nm, ds, g, os⟩ := c
  have hopts : SlashOption.fromDictList (SlashOption.toDictList os) = .ok os :=
    SlashOption.fromDictList_roundtrip os (fun o' _ => SlashOption.option_roundtrip o')
  unfold SlashCommand.to_dict SlashCommand.from_dict
  cases id <;> cases app <;> cases g <;>
    simp [optIntJ, getAsSnowflake, jLookup, getItem, jGetD, hopts]

/-- C5: for every `SlashCommand` c, `from_dict (to_dict c)` reconstructs a
command with `name`, `description` and `guild_id` equal to c's and an
option sequence element-wise equal to `c.options` (in fact the full record
round-trips exactly, by `SlashCommand.command_roundtrip`). -/
theorem c5_serialization_roundtrip (c : SlashCommand) :
    ∃ c' : SlashCommand,
      SlashCommand.from_dict (SlashCommand.to_dict c) = .ok c' ∧
      c'.name = c.name ∧ c'.description = c.description ∧
      c'.guild_id = c.guild_id ∧ c'.options = c.options :=
  ⟨c, SlashCommand.command_roundtrip c, rfl, rfl, rfl, rfl⟩

end RedInteractions
